import Mathlib

/-!
The cmake-fpga project template: `main.cpp`

A shallow embedding of `DirectProgramming/DPC++/ProjectTemplates/cmake-fpga/src/main.cpp`.

* C++ `int` values are `Int`; every value the program handles lies in `[-1, 16]`,
  so 32-bit wrap-around never comes into play.
* The buffer behind `std::vector<int> out_data` / `buffer A` is a `List Int`.
* Indexing through an accessor (`out[index]`, `result[index]`) is an
  `Option`-returning operation: `none` stands for an access outside the buffer.
* The two `for` loops are recursive functions on the loop variable `index`;
  each carries the list of index values at which its body ran.
* `std::cout` is the `String` accumulated by the read-back loop.
-/

namespace CmakeFpga

/-- The constant `constexpr int num=16;` of `main`. -/
def num : Int := 16

/-- The constant `EXIT_SUCCESS` of `<cstdlib>`. -/
def EXIT_SUCCESS : Int := 0

/-- The two selector types between which `#if defined(FPGA_EMULATOR)` chooses. -/
inductive DeviceSelector where
  | fpga_emulator_selector
  | fpga_selector
  deriving DecidableEq

/-- The declaration of `device_selector` in `main`, lines 21-27. -/
def device_selector (FPGA_EMULATOR : Bool) : DeviceSelector :=
  if FPGA_EMULATOR then DeviceSelector.fpga_emulator_selector
  else DeviceSelector.fpga_selector

/-- The object `queue q{device_selector}`: a queue bound to the selected device. -/
structure queue where
  device : DeviceSelector
  deriving DecidableEq

/-- The vector `std::vector<int> out_data(num, -1);`. -/
def out_data : List Int := List.replicate num.toNat (-1)

/-- The write `out[index] = v` through a write accessor. -/
def writeAt (out : List Int) (index v : Int) : Option (List Int) :=
  if 0 ≤ index ∧ index < out.length then some (out.set index.toNat v) else none

/-- The read `result[index]` through a read accessor. -/
def readAt (result : List Int) (index : Int) : Option Int :=
  if 0 ≤ index ∧ index < result.length then result[index.toNat]? else none

/-- The loop `for (int index = 0; index < num; ++index) { out[index] = index; }`
of the kernel, entered with the loop variable at `index`. The second component
lists the values of `index` at which the body has run. -/
def kernelLoop (index : Int) (out : List Int) (visited : List Int) :
    Option (List Int × List Int) :=
  if index < num then
    match writeAt out index index with
    | none => none
    | some out1 => kernelLoop (index + 1) out1 (visited ++ [index])
  else some (out, visited)
termination_by (num - index).toNat
decreasing_by
  simp only [num] at *
  omega

/-- The body of `ExampleKernel`: the loop started at `index = 0`. -/
def ExampleKernel (out : List Int) : Option (List Int × List Int) :=
  kernelLoop 0 out []

/-- The call `q.submit(...)` with `h.single_task<ExampleKernel>`: the kernel body
runs once on the contents of the buffer, on whichever device the queue holds. -/
def queue.submit (_q : queue) (A : List Int) : Option (List Int) :=
  (ExampleKernel A).map Prod.fst

/-- The statement `std::cout << v << "\n";` appending to the text written so far. -/
def printLine (cout : String) (v : Int) : String :=
  cout ++ toString v ++ "\n"

/-- The loop `for (int index = 0; index < num; ++index) { std::cout << result[index] << "\n"; }`
of `main`, entered with the loop variable at `index`. -/
def readLoop (index : Int) (result : List Int) (cout : String) (visited : List Int) :
    Option (String × List Int) :=
  if index < num then
    match readAt result index with
    | none => none
    | some v => readLoop (index + 1) result (printLine cout v) (visited ++ [index])
  else some (cout, visited)
termination_by (num - index).toNat
decreasing_by
  simp only [num] at *
  omega

/-- What a run of `main` leaves behind. -/
structure MainResult where
  /-- the text written to `std::cout` -/
  cout : String
  /-- the contents of buffer `A` when `main` returns -/
  A : List Int
  /-- the return value of `main` -/
  ret : Int
  deriving DecidableEq

/-- The function `main`; `FPGA_EMULATOR` tells whether the build defines the flag.
The result is `none` when an accessor is indexed outside the buffer. -/
def main (FPGA_EMULATOR : Bool) : Option MainResult :=
  let A := out_data
  let q : queue := ⟨device_selector FPGA_EMULATOR⟩
  match q.submit A with
  | none => none
  | some result =>
    match readLoop 0 result "" [] with
    | none => none
    | some (cout, _) => some ⟨cout, result, EXIT_SUCCESS⟩

/-- The index values `k, k+1, ..., k+n-1` as C++ `int`s. -/
def indices (k n : Nat) : List Int := (List.range' k n).map Int.ofNat

/-! ## Accessor lemmas -/

theorem writeAt_of_lt (out : List Int) (k : Nat) (v : Int) (h : k < out.length) :
    writeAt out (k : Int) v = some (out.set k v) := by
  have h1 : (0 : Int) ≤ (k : Int) ∧ (k : Int) < (out.length : Int) :=
    ⟨Int.ofNat_nonneg k, by exact_mod_cast h⟩
  simp [writeAt, h1]

theorem readAt_of_lt (result : List Int) (k : Nat) (h : k < result.length) :
    readAt result (k : Int) = some result[k] := by
  have h1 : (0 : Int) ≤ (k : Int) ∧ (k : Int) < (result.length : Int) :=
    ⟨Int.ofNat_nonneg k, by exact_mod_cast h⟩
  simp [readAt, h1, List.getElem?_eq_getElem h]

theorem take_succ_set (out : List Int) (k : Nat) (v : Int) (h : k < out.length) :
    (out.set k v).take (k + 1) = out.take k ++ [v] := by
  have hk : (out.take k).length = k := by
    rw [List.length_take]; omega
  rw [List.set_eq_take_append_cons_drop, if_pos h, List.take_append_eq_append_take, hk]
  simp [List.take_take]

theorem indices_zero_sixteen :
    indices 0 16 = [0, 1, 2, 3, 4, 5, 6, 7, 8, 9, 10, 11, 12, 13, 14, 15] := by
  decide

/-! ## Loop invariants -/

/-- Entered at `index = k` on a 16-element buffer, the kernel loop keeps the first
`k` elements, writes `k, ..., 15` behind them and runs its body at exactly those
index values. -/
theorem kernelLoop_spec (n : Nat) : ∀ (k : Nat) (out visited : List Int),
    k + n = 16 → out.length = 16 →
    kernelLoop (k : Int) out visited
      = some (out.take k ++ indices k n, visited ++ indices k n) := by
  induction n with
  | zero =>
    intro k out visited hk hlen
    have hk16 : k = 16 := by omega
    subst hk16
    rw [kernelLoop]
    simp [num, indices, ← hlen]
  | succ n ih =>
    intro k out visited hk hlen
    have hlt : k < out.length := by omega
    have hnum : (k : Int) < num := by simp only [num]; omega
    rw [kernelLoop, if_pos hnum, writeAt_of_lt out k k hlt]
    have := ih (k + 1) (out.set k k) (visited ++ [(k : Int)]) (by omega) (by simpa using hlen)
    simp only [Nat.cast_add, Nat.cast_one] at this
    simp only [this, take_succ_set out k k hlt, indices, List.range'_succ, List.map_cons,
      List.append_assoc, List.singleton_append, Int.ofNat_eq_coe]

/-- Entered at `index = k` on a 16-element buffer, the read-back loop prints the
elements from position `k` on, in order, and runs its body at `k, ..., 15`. -/
theorem readLoop_spec (n : Nat) : ∀ (k : Nat) (result : List Int) (cout : String)
    (visited : List Int), k + n = 16 → result.length = 16 →
    readLoop (k : Int) result cout visited
      = some ((result.drop k).foldl printLine cout, visited ++ indices k n) := by
  induction n with
  | zero =>
    intro k result cout visited hk hlen
    have hk16 : k = 16 := by omega
    subst hk16
    rw [readLoop]
    simp [num, indices, ← hlen]
  | succ n ih =>
    intro k result cout visited hk hlen
    have hlt : k < result.length := by omega
    have hnum : (k : Int) < num := by simp only [num]; omega
    rw [readLoop, if_pos hnum, readAt_of_lt result k hlt]
    have := ih (k + 1) result (printLine cout result[k]) (visited ++ [(k : Int)])
      (by omega) hlen
    simp only [Nat.cast_add, Nat.cast_one] at this
    simp only [this, List.drop_eq_getElem_cons hlt, List.foldl_cons, indices,
      List.range'_succ, List.map_cons, List.append_assoc, List.singleton_append,
      Int.ofNat_eq_coe]

/-- On any 16-element buffer the kernel returns `[0, ..., 15]`, its body having run
at the index values `0, ..., 15`. -/
theorem ExampleKernel_eq (out : List Int) (h : out.length = 16) :
    ExampleKernel out
      = some ([0, 1, 2, 3, 4, 5, 6, 7, 8, 9, 10, 11, 12, 13, 14, 15],
              [0, 1, 2, 3, 4, 5, 6, 7, 8, 9, 10, 11, 12, 13, 14, 15]) := by
  have := kernelLoop_spec 16 0 out [] rfl h
  simpa [ExampleKernel, indices_zero_sixteen] using this

/-- On any 16-element buffer the read-back loop prints every element in order. -/
theorem readLoop_eq (result : List Int) (h : result.length = 16) :
    readLoop 0 result "" []
      = some (result.foldl printLine "",
              [0, 1, 2, 3, 4, 5, 6, 7, 8, 9, 10, 11, 12, 13, 14, 15]) := by
  have := readLoop_spec 16 0 result "" [] rfl h
  simpa [indices_zero_sixteen] using this

theorem out_data_length : out_data.length = 16 := by
  decide

theorem printed_text :
    [0, 1, 2, 3, 4, 5, 6, 7, 8, 9, 10, 11, 12, 13, 14, 15].foldl printLine ""
      = "0\n1\n2\n3\n4\n5\n6\n7\n8\n9\n10\n11\n12\n13\n14\n15\n" := by
  decide

/-- Under either build configuration `main` returns with the filled buffer, the
sixteen printed lines and `EXIT_SUCCESS`. -/
theorem main_eq (FPGA_EMULATOR : Bool) :
    main FPGA_EMULATOR
      = some ⟨"0\n1\n2\n3\n4\n5\n6\n7\n8\n9\n10\n11\n12\n13\n14\n15\n",
              [0, 1, 2, 3, 4, 5, 6, 7, 8, 9, 10, 11, 12, 13, 14, 15], EXIT_SUCCESS⟩ := by
  have hk := ExampleKernel_eq out_data out_data_length
  have hr := readLoop_eq [0, 1, 2, 3, 4, 5, 6, 7, 8, 9, 10, 11, 12, 13, 14, 15] rfl
  simp only [main, queue.submit, hk, Option.map_some', hr, printed_text]

/-! ## The claims -/

/-- C1: after the `ExampleKernel` body has run on the 16-element buffer created in
`main`, the buffer is exactly `[0, 1, ..., 15]`: it has 16 elements and the element
at every position `i < 16` equals `i`. -/
theorem C1_kernel_output_is_index :
    ∃ out visited, ExampleKernel out_data = some (out, visited) ∧
      out = [0, 1, 2, 3, 4, 5, 6, 7, 8, 9, 10, 11, 12, 13, 14, 15] ∧
      out.length = 16 ∧ ∀ i : Nat, i < 16 → out[i]? = some (i : Int) := by
  refine ⟨_, _, ExampleKernel_eq out_data out_data_length, rfl, rfl, ?_⟩
  decide

/-- C2: the host-side sequence `out_data` that `main` creates before any kernel is
submitted has length exactly 16 and every one of its elements is the sentinel -1. -/
theorem C2_out_data_initial :
    out_data.length = 16 ∧ (∀ x ∈ out_data, x = -1) ∧
      ∀ i : Nat, i < 16 → out_data[i]? = some (-1) := by
  refine ⟨out_data_length, ?_, ?_⟩
  · intro x hx
    exact List.eq_of_mem_replicate hx
  · decide

/-- C4: under either device configuration `main` returns, and the value it returns
is `EXIT_SUCCESS`, which is 0. -/
theorem C4_main_returns_exit_success :
    EXIT_SUCCESS = 0 ∧
      ∀ FPGA_EMULATOR : Bool, (main FPGA_EMULATOR).map MainResult.ret = some EXIT_SUCCESS := by
  refine ⟨rfl, ?_⟩
  intro b
  rw [main_eq b]
  rfl

/-- C6: the text `main` writes to standard output is exactly the 16 lines
`0`, `1`, ..., `15`, in increasing index order, each followed by one newline, and
nothing else. -/
theorem C6_printed_lines :
    ∀ FPGA_EMULATOR : Bool,
      (main FPGA_EMULATOR).map MainResult.cout = some "0\n1\n2\n3\n4\n5\n6\n7\n8\n9\n10\n11\n12\n13\n14\n15\n" := by
  intro b
  rw [main_eq b]
  rfl

/-- C7: on a 16-element buffer neither the kernel loop nor the host read-back loop
reaches the out-of-bounds branch of an accessor; each runs its body exactly 16
times, at index values that all lie in `[0, 16)`. -/
theorem C7_accesses_in_bounds (A : List Int) (h : A.length = 16) :
    ∃ out cout kernelVisited readVisited,
      ExampleKernel A = some (out, kernelVisited) ∧
      readLoop 0 out "" [] = some (cout, readVisited) ∧
      kernelVisited.length = 16 ∧ readVisited.length = 16 ∧
      (∀ i ∈ kernelVisited, 0 ≤ i ∧ i < num ∧ i < out.length) ∧
      (∀ i ∈ readVisited, 0 ≤ i ∧ i < num ∧ i < out.length) := by
  refine ⟨_, _, _, _, ExampleKernel_eq A h, readLoop_eq _ rfl, rfl, rfl, ?_, ?_⟩ <;> decide

/-- C7 at the buffer `main` creates. -/
theorem C7_accesses_in_bounds_witness :
    out_data.length = 16 ∧
    ∃ out cout kernelVisited readVisited,
      ExampleKernel out_data = some (out, kernelVisited) ∧
      readLoop 0 out "" [] = some (cout, readVisited) ∧
      kernelVisited.length = 16 ∧ readVisited.length = 16 ∧
      (∀ i ∈ kernelVisited, 0 ≤ i ∧ i < num ∧ i < out.length) ∧
      (∀ i ∈ readVisited, 0 ≤ i ∧ i < num ∧ i < out.length) :=
  ⟨by decide, C7_accesses_in_bounds out_data (by decide)⟩

/-- C8: the kernel's result does not depend on what the buffer held before: on every
16-element buffer it yields `[0, 1, ..., 15]`, so two 16-element buffers give the
same result and running the kernel a second time changes nothing. -/
theorem C8_kernel_ignores_prior_contents (q : queue) (A : List Int) (h : A.length = 16) :
    q.submit A = some [0, 1, 2, 3, 4, 5, 6, 7, 8, 9, 10, 11, 12, 13, 14, 15] ∧
      (∀ B : List Int, B.length = 16 → q.submit B = q.submit A) ∧
      (q.submit A).bind q.submit = q.submit A := by
  have key : ∀ B : List Int, B.length = 16 → q.submit B = some [0, 1, 2, 3, 4, 5, 6, 7, 8, 9, 10, 11, 12, 13, 14, 15] := by
    intro B hB
    simp only [queue.submit, ExampleKernel_eq B hB, Option.map_some']
  refine ⟨key A h, fun B hB => by rw [key B hB, key A h], ?_⟩
  rw [key A h, Option.some_bind]
  exact key _ rfl

/-- C8 at a buffer that holds neither the sentinel nor the indices. -/
theorem C8_kernel_ignores_prior_contents_witness :
    [7, 7, 7, 7, 7, 7, 7, 7, -3, -3, -3, -3, 100, 100, 100, 100].length = 16 ∧
      (queue.submit ⟨DeviceSelector.fpga_selector⟩
          [7, 7, 7, 7, 7, 7, 7, 7, -3, -3, -3, -3, 100, 100, 100, 100]
        = some [0, 1, 2, 3, 4, 5, 6, 7, 8, 9, 10, 11, 12, 13, 14, 15] ∧
      (∀ B : List Int, B.length = 16 →
        queue.submit ⟨DeviceSelector.fpga_selector⟩ B
          = queue.submit ⟨DeviceSelector.fpga_selector⟩
              [7, 7, 7, 7, 7, 7, 7, 7, -3, -3, -3, -3, 100, 100, 100, 100]) ∧
      (queue.submit ⟨DeviceSelector.fpga_selector⟩
          [7, 7, 7, 7, 7, 7, 7, 7, -3, -3, -3, -3, 100, 100, 100, 100]).bind
            (queue.submit ⟨DeviceSelector.fpga_selector⟩)
        = queue.submit ⟨DeviceSelector.fpga_selector⟩
            [7, 7, 7, 7, 7, 7, 7, 7, -3, -3, -3, -3, 100, 100, 100, 100]) :=
  ⟨rfl, C8_kernel_ignores_prior_contents ⟨DeviceSelector.fpga_selector⟩
    [7, 7, 7, 7, 7, 7, 7, 7, -3, -3, -3, -3, 100, 100, 100, 100] rfl⟩

/-- C9: the kernel body overwrites in place: given a buffer of length 16 it returns
a buffer of length 16, and no element of the returned buffer is the sentinel -1. -/
theorem C9_kernel_preserves_length (A : List Int) (h : A.length = 16) :
    ∃ out visited, ExampleKernel A = some (out, visited) ∧
      out.length = A.length ∧ out.length = 16 ∧ ∀ x ∈ out, x ≠ -1 := by
  refine ⟨_, _, ExampleKernel_eq A h, ?_, rfl, ?_⟩
  · rw [h]; rfl
  · decide

/-- C9 at the all-sentinel buffer `main` creates. -/
theorem C9_kernel_preserves_length_witness :
    out_data.length = 16 ∧
    ∃ out visited, ExampleKernel out_data = some (out, visited) ∧
      out.length = out_data.length ∧ out.length = 16 ∧ ∀ x ∈ out, x ≠ -1 :=
  ⟨by decide, C9_kernel_preserves_length out_data (by decide)⟩

end CmakeFpga
